import Mathlib

/-!
Verification of the uncertainty-effect bookkeeping subsystem of FCDR_HIRS
(`FCDR_HIRS/effects.py`): the `Rmodel` correlation-matrix strategies, the
`Effect` entity with its validated setters, and the process-wide effect
registry.  Python machine floats holding only the exact values 0.0 and 1.0
are embedded as rationals; Python exceptions are embedded as an explicit
error type with `Except`.
-/

/-- Python exception classes raised by `effects.py`, distinguished by
constructor the way Python distinguishes them by class. -/
inductive PyErr where
  | valueError : String → PyErr
  | typeError : String → PyErr
  | attributeError : String → PyErr
  | keyError : String → PyErr
  | notImplementedError : String → PyErr
  deriving DecidableEq, Repr

/-- The slice of an xarray `Dataset` that the `Rmodel` classes read:
the `calibrated_channel` and `scanpos` dimension sizes, and the
`scanline_earth` and `calibration_cycle` coordinate arrays (times,
embedded as integers).  `ds.dims["scanline_earth"]` is the length of the
`scanline_earth` coordinate. -/
structure Dataset where
  calibrated_channel : Nat
  scanpos : Nat
  scanline_earth : List Int
  calibration_cycle : List Int
  deriving DecidableEq, Repr

/-- Dimension size of `scanline_earth`. -/
def Dataset.n_l (ds : Dataset) : Nat := ds.scanline_earth.length

/-- A 4-dimensional numpy array of float32 values that are exactly 0.0 or
1.0, embedded as a shape together with an entry function (entries outside
the shape are irrelevant). -/
structure RArr4 where
  shape : Nat × Nat × Nat × Nat
  entry : Nat → Nat → Nat → Nat → ℚ

/-- Embeds Python `math.ceil(a / b)` for natural `a` and positive `b`. -/
def ceilDiv (a b : Nat) : Nat := (a + b - 1) / b

/-- Embeds the intermediate `ccid` array of `RModelCalib.calc_R_lΛekx`:
`(ds["scanline_earth"] > ds["calibration_cycle"]).sum("calibration_cycle")`,
i.e. for scanline `i` the number of calibration-cycle coordinate values
strictly preceding that scanline's coordinate value. -/
def ccid (ds : Dataset) (i : Nat) : Nat :=
  (ds.calibration_cycle.filter (fun c => c < ds.scanline_earth.getD i 0)).length

/-- Embeds the intermediate matrix `R = (ccid[:, None] == ccid[None, :])`
cast to float: 1.0 where the calibration-cycle counts agree, 0.0 elsewhere. -/
def calibR (ds : Dataset) (i j : Nat) : ℚ :=
  if ccid ds i = ccid ds j then 1 else 0

/-- Embeds `RModelCalib.calc_R_lΛekx`: the stride-subsampled matrix
`R[::sampling_l, ::sampling_l]` tiled along a channel axis of size
`n_c` and a scanpos axis of size `ceil(n_p / sampling_e)`; `numpy.tile`
indexes the tiled source modulo its shape. -/
def RModelCalib.calc_R_lΛekx (ds : Dataset) (sampling_l sampling_e : Nat) : RArr4 :=
  let m := ceilDiv ds.n_l sampling_l
  { shape := (ds.calibrated_channel, ceilDiv ds.scanpos sampling_e, m, m),
    entry := fun _c _p i j => calibR ds ((i % m) * sampling_l) ((j % m) * sampling_l) }

/-- Embeds `RModelCalib.calc_R_eΛlkx`: an all-ones array of shape
`(n_c, ceil(n_l / sampling_l), ceil(n_p / sampling_e), ceil(n_p / sampling_e))`. -/
def RModelCalib.calc_R_eΛlkx (ds : Dataset) (sampling_l sampling_e : Nat) : RArr4 :=
  { shape := (ds.calibrated_channel, ceilDiv ds.n_l sampling_l,
              ceilDiv ds.scanpos sampling_e, ceilDiv ds.scanpos sampling_e),
    entry := fun _c _l _i _j => 1 }

/-- Embeds `RModelRandom.calc_R_eΛlkx`: `numpy.eye(ceil(n_p / sampling_e))`
tiled over `[n_c, ceil(n_l / sampling_l), 1, 1]`; `numpy.tile` indexes the
identity block modulo its size. -/
def RModelRandom.calc_R_eΛlkx (ds : Dataset) (sampling_l sampling_e : Nat) : RArr4 :=
  let m := ceilDiv ds.scanpos sampling_e
  { shape := (ds.calibrated_channel, ceilDiv ds.n_l sampling_l, m, m),
    entry := fun _c _l i j => if i % m = j % m then 1 else 0 }

/-- Embeds `RModelRandom.calc_R_lΛekx`: `numpy.eye(ceil(n_l / sampling_l))`
tiled over `[n_c, ceil(n_p / sampling_e), 1, 1]`. -/
def RModelRandom.calc_R_lΛekx (ds : Dataset) (sampling_l sampling_e : Nat) : RArr4 :=
  let m := ceilDiv ds.n_l sampling_l
  { shape := (ds.calibrated_channel, ceilDiv ds.scanpos sampling_e, m, m),
    entry := fun _c _p i j => if i % m = j % m then 1 else 0 }

/-- Embeds `RModelCommon.calc_R_eΛlkx`, which unconditionally raises
`ValueError("We do not calculate error correlation matrices for common effects")`. -/
def RModelCommon.calc_R_eΛlkx (_ds : Dataset) (_sampling_l _sampling_e : Nat) :
    Except PyErr RArr4 :=
  .error (.valueError "We do not calculate error correlation matrices for common effects")

/-- Embeds `RModelCommon.calc_R_lΛekx`, which in the source is the very same
function object (`calc_R_lΛekx = calc_R_eΛlkx` in the class body). -/
def RModelCommon.calc_R_lΛekx : Dataset → Nat → Nat → Except PyErr RArr4 :=
  RModelCommon.calc_R_eΛlkx

/-- Embeds `RModelPeriodicError.calc_R_eΛlkx`: `raise NotImplementedError()`. -/
def RModelPeriodicError.calc_R_eΛlkx (_ds : Dataset) (_sampling_l _sampling_e : Nat) :
    Except PyErr RArr4 :=
  .error (.notImplementedError "")

/-- Embeds `RModelPeriodicError.calc_R_lΛekx`: `raise NotImplementedError()`. -/
def RModelPeriodicError.calc_R_lΛekx (_ds : Dataset) (_sampling_l _sampling_e : Nat) :
    Except PyErr RArr4 :=
  .error (.notImplementedError "")

/-- Embeds `RModelRSelf.calc_R_eΛlkx`: `raise NotImplementedError()`. -/
def RModelRSelf.calc_R_eΛlkx (_ds : Dataset) (_sampling_l _sampling_e : Nat) :
    Except PyErr RArr4 :=
  .error (.notImplementedError "")

/-- Embeds `RModelRSelf.calc_R_lΛekx`: `raise NotImplementedError()`. -/
def RModelRSelf.calc_R_lΛekx (_ds : Dataset) (_sampling_l _sampling_e : Nat) :
    Except PyErr RArr4 :=
  .error (.notImplementedError "")

example : ccid ⟨2, 3, [0, 2, 4, 6], [1, 5]⟩ 2 = 1 := by decide
example : (RModelCalib.calc_R_lΛekx ⟨2, 3, [0, 2, 4, 6], [1, 5]⟩ 1 1).entry 0 0 1 2 = 1 := by
  decide
example : (RModelCalib.calc_R_lΛekx ⟨2, 3, [0, 2, 4, 6], [1, 5]⟩ 1 1).entry 0 0 0 1 = 0 := by
  decide

/-- A Python numeric scalar, possibly infinite (`numpy.inf` or `-numpy.inf`);
finite values are embedded as rationals. -/
inductive ScaleNum where
  | fin : ℚ → ScaleNum
  | inf : ScaleNum
  | ninf : ScaleNum
  deriving DecidableEq, Repr

/-- Embeds `numpy.isinf` on a scalar. -/
def ScaleNum.isinf : ScaleNum → Bool
  | .fin _ => false
  | .inf => true
  | .ninf => true

/-- A Python scalar value as passed in a correlation-scale slot: either a
number or a non-numeric value (embedded by a string), so that the
`isinstance(x, (numbers.Number, numpy.ndarray))` check of the
`correlation_scale` setter can fail. -/
inductive PyScalar where
  | num : ScaleNum → PyScalar
  | nonNum : String → PyScalar
  deriving DecidableEq, Repr

/-- Embeds `isinstance(x, (numbers.Number, numpy.ndarray))`. -/
def PyScalar.isNumeric : PyScalar → Bool
  | .num _ => true
  | .nonNum _ => false

/-- Numeric content of a validated scale slot. -/
def PyScalar.toNum : PyScalar → ScaleNum
  | .num n => n
  | .nonNum _ => .fin 0

/-- Embeds the `CorrelationType` namedtuple: one correlation-shape string
per correlation axis. -/
structure CorrelationType4 where
  within_scanline : String
  between_scanlines : String
  between_orbits : String
  across_time : String
  deriving DecidableEq, Repr

/-- Iteration order of a `CorrelationType` namedtuple (field order). -/
def ctList (v : CorrelationType4) : List String :=
  [v.within_scanline, v.between_scanlines, v.between_orbits, v.across_time]

/-- Embeds the `CorrelationScale` namedtuple holding validated numeric slots. -/
structure CorrelationScale4 where
  within_scanline : ScaleNum
  between_scanlines : ScaleNum
  between_orbits : ScaleNum
  across_time : ScaleNum
  deriving DecidableEq, Repr

/-- Iteration order of a `CorrelationScale` namedtuple (field order). -/
def csList (v : CorrelationScale4) : List ScaleNum :=
  [v.within_scanline, v.between_scanlines, v.between_orbits, v.across_time]

/-- A `CorrelationScale` candidate before validation: raw Python scalars. -/
structure PyScalar4 where
  within_scanline : PyScalar
  between_scanlines : PyScalar
  between_orbits : PyScalar
  across_time : PyScalar
  deriving DecidableEq, Repr

/-- Iteration order of the raw scale tuple. -/
def psList (v : PyScalar4) : List PyScalar :=
  [v.within_scanline, v.between_scanlines, v.between_orbits, v.across_time]

/-- The five concrete `Rmodel` strategy singletons of `effects.py`. -/
inductive RmodelKind where
  | calib | random | common | periodicerror | rself
  deriving DecidableEq, Repr

/-- A value stored in a `DataArray`'s `attrs` or `encoding` dictionary. -/
inductive AttrVal where
  | s : String → AttrVal
  | scale : ScaleNum → AttrVal
  | mat : Option (List (List ℚ)) → AttrVal
  deriving DecidableEq, Repr

/-- Embeds an `xarray.DataArray` as far as the magnitude setter observes it:
a scalar payload, an optional name, and the `attrs` and `encoding`
dictionaries (association lists in insertion order). -/
structure DataArray where
  data : ℚ
  name : Option String
  attrs : List (String × AttrVal)
  encoding : List (String × AttrVal)
  deriving DecidableEq, Repr

/-- Dictionary lookup `d[k]` returning `none` when absent. -/
def lookupAttr (l : List (String × AttrVal)) (k : String) : Option AttrVal :=
  (l.find? (fun p => p.1 == k)).map Prod.snd

/-- Dictionary assignment `d[k] = v`: replace in place or append. -/
def attrsSet (l : List (String × AttrVal)) (k : String) (v : AttrVal) :
    List (String × AttrVal) :=
  if (l.find? (fun p => p.1 == k)).isSome then
    l.map (fun p => if p.1 == k then (k, v) else p)
  else l ++ [(k, v)]

/-- Embeds `d.setdefault(k, v)`. -/
def attrsSetdefault (l : List (String × AttrVal)) (k : String) (v : AttrVal) :
    List (String × AttrVal) :=
  if (l.find? (fun p => p.1 == k)).isSome then l else l ++ [(k, v)]

/-- Embeds `d.update(upd)`: assign every pair of `upd` in order. -/
def dictUpdate (l upd : List (String × AttrVal)) : List (String × AttrVal) :=
  upd.foldl (fun acc p => attrsSet acc p.1 p.2) l

/-- Embeds the mutable attribute state of an `Effect` instance.  The class
defaults of `effects.py` are the field defaults (`None` defaults of scalar
string fields are embedded as the empty string, the catalogue always sets
them). -/
structure EffectState where
  name : String := ""
  description : String := ""
  parameter : String := ""
  unit : Option String := none
  pdf_shape : String := "Gaussian"
  channels_affected : String := "all"
  channel_correlations : Option (List (List ℚ)) := none
  dimensions : Option (List String) := none
  rmodel : Option RmodelKind := none
  _magnitude : Option DataArray := none
  _corr_type : CorrelationType4 :=
    ⟨"undefined", "undefined", "undefined", "undefined"⟩
  _corr_scale : CorrelationScale4 := ⟨.fin 0, .fin 0, .fin 0, .fin 0⟩
  deriving DecidableEq, Repr

/-- Embeds `Effect._valid_correlation_types`. -/
def _valid_correlation_types : List String :=
  ["undefined", "random", "rectangular_absolute", "triangular_relative",
   "truncated_gaussian_relative", "repeated_rectangles",
   "repeated_truncated_gaussians"]

/-- Message of the `ValueError` raised by the `correlation_type` setter for
an offending slot value `x`. -/
def ctErrMsg (x : String) : String :=
  "Unknown correlation type: " ++ x ++ ". Expected one of: " ++
    String.intercalate ", " _valid_correlation_types

/-- Embeds the `Effect.correlation_type` property setter: coerce to a
`CorrelationType`, check every slot against the closed vocabulary (first
offender raises `ValueError`), then store the tuple. -/
def Effect.setCorrelationType (e : EffectState) (v : CorrelationType4) :
    Except PyErr EffectState :=
  match (ctList v).find? (fun x => !(_valid_correlation_types.contains x)) with
  | some x => .error (.valueError (ctErrMsg x))
  | none => .ok { e with _corr_type := v }

/-- Embeds the `Effect.correlation_scale` property setter: coerce to a
`CorrelationScale`, check every slot is numeric (else `TypeError`), then
store the tuple. -/
def Effect.setCorrelationScale (e : EffectState) (v : PyScalar4) :
    Except PyErr EffectState :=
  if (psList v).all PyScalar.isNumeric then
    .ok { e with _corr_scale :=
      ⟨v.within_scanline.toNum, v.between_scanlines.toNum,
       v.between_orbits.toNum, v.across_time.toNum⟩ }
  else .error (.typeError "correlation scale must be numeric")

/-- Embeds `Effect.is_common`: all four correlation-type axes are
`"rectangular_absolute"` and every correlation-scale slot is infinite. -/
def Effect.is_common (e : EffectState) : Bool :=
  (ctList e._corr_type).all (fun x => x == "rectangular_absolute") &&
    (csList e._corr_scale).all ScaleNum.isinf

/-- Shorthand for an all-`"rectangular_absolute"` correlation-type tuple
(the `_systematic` constant of the catalogue). -/
def allRect : CorrelationType4 :=
  ⟨"rectangular_absolute", "rectangular_absolute", "rectangular_absolute",
   "rectangular_absolute"⟩

example :
    Effect.is_common { _corr_type := allRect,
                       _corr_scale := ⟨.inf, .inf, .inf, .inf⟩ } = true := by decide
example :
    Effect.is_common { _corr_type := allRect,
                       _corr_scale := ⟨.fin 1000, .fin 1000, .fin 1000, .fin 1000⟩ }
      = false := by decide

/-- Embeds Python `s.startswith(pre)` by character-list prefix comparison
(kernel-reducible, unlike `String.startsWith`). -/
def pyStartsWith (s pre : String) : Bool := pre.data.isPrefixOf s.data

/-- Decidable equality for embedded Python results, so that concrete runs of
the fallible operations can be settled by `decide`. -/
instance {ε α : Type} [DecidableEq ε] [DecidableEq α] : DecidableEq (Except ε α) := fun a b =>
  match a, b with
  | .error e1, .error e2 =>
      if h : e1 = e2 then .isTrue (h ▸ rfl) else .isFalse (fun hc => h (Except.error.inj hc))
  | .ok a1, .ok a2 =>
      if h : a1 = a2 then .isTrue (h ▸ rfl) else .isFalse (fun hc => h (Except.ok.inj hc))
  | .error _, .ok _ => .isFalse (fun hc => Except.noConfusion hc)
  | .ok _, .error _ => .isFalse (fun hc => Except.noConfusion hc)

/-- The module-level `WARNING` banner string of `effects.py`. -/
def WARNING : String :=
  "VERY EARLY TRIAL VERSION! DO NOT USE THE CONTENTS OF THIS PRODUCT FOR " ++
  "ANY PURPOSE UNDER ANY CIRCUMSTANCES! This serves exclusively as a file " ++
  "format demonstration!"

/-- A value assigned to `Effect.magnitude`: a plain number (no `.u`
attribute, so the unit probe raises `AttributeError`), a pint quantity
carrying a unit, or an already-wrapped `xarray.DataArray`. -/
inductive MagInput where
  | plain : ℚ → MagInput
  | quantity : ℚ → String → MagInput
  | array : DataArray → MagInput
  deriving DecidableEq, Repr

/-- Embeds the metadata-stamping block of the `Effect.magnitude` setter:
`setdefault("long_name", ...)`, the fixed attribute assignments, the four
interleaved per-axis correlation-type and correlation-scale attributes (in
`_asdict` field order), the channel-correlation matrix, the stringified
sensitivity coefficient `sens` (an external symbolic computation, passed in
as an opaque string), and the `WARNING` banner. -/
def stampedAttrs (sens : String) (e : EffectState) (a0 : List (String × AttrVal)) :
    List (String × AttrVal) :=
  attrsSet (attrsSet (attrsSet (attrsSet (attrsSet (attrsSet (attrsSet (attrsSet
    (attrsSet (attrsSet (attrsSet (attrsSet (attrsSet (attrsSet (attrsSet
      (attrsSetdefault a0 "long_name" (.s e.description))
      "short_name" (.s e.name))
      "parameter" (.s e.parameter))
      "pdf_shape" (.s e.pdf_shape))
      "channels_affected" (.s e.channels_affected))
      "correlation_type_within_scanline" (.s e._corr_type.within_scanline))
      "correlation_scale_within_scanline" (.scale e._corr_scale.within_scanline))
      "correlation_type_between_scanlines" (.s e._corr_type.between_scanlines))
      "correlation_scale_between_scanlines" (.scale e._corr_scale.between_scanlines))
      "correlation_type_between_orbits" (.s e._corr_type.between_orbits))
      "correlation_scale_between_orbits" (.scale e._corr_scale.between_orbits))
      "correlation_type_across_time" (.s e._corr_type.across_time))
      "correlation_scale_across_time" (.scale e._corr_scale.across_time))
      "channel_correlations" (.mat e.channel_correlations))
      "sensitivity_coefficient" (.s sens))
      "WARNING" (.s WARNING)

/-- The stamping step as a `DataArray` transformer: only `attrs` changes. -/
def stampAttrs (sens : String) (e : EffectState) (da : DataArray) : DataArray :=
  { da with attrs := stampedAttrs sens e da.attrs }

/-- An external per-variable table keyed by effect name (the repository's
`_fcdr_defs` module, outside the modelled source): `props` stands for
`FCDR_data_vars_props` projected to its encoding component (`entry[3]`),
`uncEnc` for `FCDR_uncertainty_encodings`. -/
abbrev EncTable := List (String × List (String × AttrVal))

/-- Lookup in an encoding table. -/
def encLookup (t : EncTable) (k : String) : Option (List (String × AttrVal)) :=
  (t.find? (fun p => p.1 == k)).map Prod.snd

/-- Embeds the body of the `Effect.magnitude` setter, producing the
`DataArray` that would be stored in `self._magnitude`:

1. if the input is not a `DataArray`, probe its unit (plain numbers have
   none), wrap it, and `setdefault` a `units` attribute when a unit exists;
2. default the name to `"u_" + self.name` when unnamed;
3. stamp the fixed metadata block (`stampAttrs`);
4. if `not self.name.startswith("O_") or self.name in props`, merge
   `props[self.name]` into `encoding` — a `KeyError` when that lookup
   fails;
5. merge `uncEnc.get(self.name, dict())` into `encoding`. -/
def Effect.buildMagnitude (props uncEnc : EncTable) (sens : String)
    (e : EffectState) (input : MagInput) : Except PyErr DataArray :=
  let da0 : DataArray :=
    match input with
    | .plain q => { data := q, name := none, attrs := [], encoding := [] }
    | .quantity q u =>
        { data := q, name := none,
          attrs := attrsSetdefault [] "units" (.s u), encoding := [] }
    | .array d => d
  let da1 := if da0.name = none then { da0 with name := some ("u_" ++ e.name) } else da0
  let da2 := stampAttrs sens e da1
  let step4 : Except PyErr DataArray :=
    if !(pyStartsWith e.name "O_") || (encLookup props e.name).isSome then
      match encLookup props e.name with
      | some enc => .ok { da2 with encoding := dictUpdate da2.encoding enc }
      | none => .error (.keyError e.name)
    else .ok da2
  match step4 with
  | .error err => .error err
  | .ok da3 =>
      .ok { da3 with encoding := dictUpdate da3.encoding ((encLookup uncEnc e.name).getD []) }

/-- Embeds the `Effect.magnitude` setter as a state transformer: on success
the built array is stored in `_magnitude` and nothing else changes. -/
def Effect.setMagnitude (props uncEnc : EncTable) (sens : String)
    (e : EffectState) (input : MagInput) : Except PyErr EffectState :=
  (Effect.buildMagnitude props uncEnc sens e input).map
    (fun da => { e with _magnitude := some da })

example :
    Effect.buildMagnitude [] [] "" { name := "Earthshine" } (.plain 0)
      = .error (.keyError "Earthshine") := by decide
example :
    (Effect.buildMagnitude [] [] "" { name := "O_TIWCT" } (.plain 0)).isOk = true := by
  decide

/-- Embeds `Effect._all_effects`: the process-wide mapping from a
measurement-equation parameter symbol (its name) to the set of `Effect`
instances perturbing it, as an association list holding duplicate-free
element lists. -/
abbrev Registry := List (String × List EffectState)

/-- Embeds Python `set.add`: insert unless already present. -/
def setAdd (l : List EffectState) (e : EffectState) : List EffectState :=
  if l.contains e then l else l ++ [e]

/-- Embeds the registration tail of `Effect.__init__`: create the
per-parameter set lazily, then add the new effect to it. -/
def registerEffect (reg : Registry) (e : EffectState) : Registry :=
  if (reg.find? (fun p => p.1 == e.parameter)).isSome then
    reg.map (fun p => if p.1 == e.parameter then (p.1, setAdd p.2 e) else p)
  else reg ++ [(e.parameter, setAdd [] e)]

/-- A keyword argument handed to `Effect(**kwargs)`.  Known attribute names
are embedded as typed constructors (Python stores the values dynamically);
`unknownAttr` stands for any name that is not a class attribute, for which
the classifying `getattr(self.__class__, k)` raises `AttributeError`. -/
inductive Kwarg where
  | name : String → Kwarg
  | description : String → Kwarg
  | parameter : String → Kwarg
  | unit : String → Kwarg
  | pdf_shape : String → Kwarg
  | channels_affected : String → Kwarg
  | channel_correlations : List (List ℚ) → Kwarg
  | dimensions : List String → Kwarg
  | rmodel : RmodelKind → Kwarg
  | correlation_type : CorrelationType4 → Kwarg
  | correlation_scale : PyScalar4 → Kwarg
  | magnitude : MagInput → Kwarg
  | unknownAttr : String → Kwarg
  deriving DecidableEq, Repr

/-- Whether the attribute is implemented as a `property` on the class
(`magnitude`, `correlation_type`, `correlation_scale`), and hence deferred
by `__init__` to the second loop. -/
def Kwarg.isProperty : Kwarg → Bool
  | .correlation_type _ => true
  | .correlation_scale _ => true
  | .magnitude _ => true
  | _ => false

/-- Embeds a single `setattr(self, k, v)` inside `__init__`: plain
attributes are stored directly, property attributes run their validating
setters, unknown names raise `AttributeError`. -/
def applyKwarg (props uncEnc : EncTable) (sens : String) (e : EffectState) :
    Kwarg → Except PyErr EffectState
  | .name s => .ok { e with name := s }
  | .description s => .ok { e with description := s }
  | .parameter s => .ok { e with parameter := s }
  | .unit s => .ok { e with unit := some s }
  | .pdf_shape s => .ok { e with pdf_shape := s }
  | .channels_affected s => .ok { e with channels_affected := s }
  | .channel_correlations m => .ok { e with channel_correlations := some m }
  | .dimensions d => .ok { e with dimensions := some d }
  | .rmodel r => .ok { e with rmodel := some r }
  | .correlation_type ct => Effect.setCorrelationType e ct
  | .correlation_scale cs => Effect.setCorrelationScale e cs
  | .magnitude m => Effect.setMagnitude props uncEnc sens e m
  | .unknownAttr k => .error (.attributeError ("Unknown attribute: " ++ k))

/-- Sequential application of keyword arguments, stopping at the first
raised exception. -/
def applyKwargs (props uncEnc : EncTable) (sens : String) :
    EffectState → List Kwarg → Except PyErr EffectState
  | e, [] => .ok e
  | e, k :: rest =>
      match applyKwarg props uncEnc sens e k with
      | .ok e2 => applyKwargs props uncEnc sens e2 rest
      | .error err => .error err

/-- The order in which `Effect.__init__` applies `kwargs`: the first loop
pops items LIFO (`dict.popitem`), applying plain attributes immediately and
pushing property attributes onto `later_pairs`; the second loop pops
`later_pairs` LIFO, which restores insertion order for the properties. -/
def initOrder (kwargs : List Kwarg) : List Kwarg :=
  kwargs.reverse.filter (fun k => !k.isProperty) ++ kwargs.filter Kwarg.isProperty

/-- Embeds `Effect.__init__` together with its effect on the process-wide
registry: apply all keyword arguments in `initOrder`; only when every
assignment succeeded, register the new instance (the registration is the
final statement of `__init__`, after both assignment loops).  A raised
exception propagates with the registry exactly as it was, since no
statement before the registration touches the registry. -/
def effectInit (props uncEnc : EncTable) (sens : String) (reg : Registry)
    (kwargs : List Kwarg) : Except PyErr EffectState × Registry :=
  match applyKwargs props uncEnc sens {} (initOrder kwargs) with
  | .error err => (.error err, reg)
  | .ok e => (.ok e, registerEffect reg e)

example :
    (effectInit [] [] "" []
      [.name "x", .parameter "p",
       .correlation_type ⟨"random", "random", "random", "gaussian"⟩]).2 = [] := by
  decide
example :
    ((effectInit [] [] "" [] [.name "x", .parameter "p"]).2).length = 1 := by decide

/-- A heap of Python objects holding `Registry` values, addressed by
identity: the reference semantics that `copy.deepcopy` is about. -/
abbrev Heap := List (Nat × Registry)

/-- Dereference an address. -/
def heapGet (h : Heap) (a : Nat) : Option Registry :=
  (h.find? (fun p => p.1 == a)).map Prod.snd

/-- Overwrite the object at an address (in-place mutation). -/
def heapSet (h : Heap) (a : Nat) (v : Registry) : Heap :=
  h.map (fun p => if p.1 == a then (a, v) else p)

/-- The interpreter state seen by the module-level `effects()` accessor:
the heap, the address of the live `Effect._all_effects` registry, and the
next fresh address. -/
structure PyState where
  heap : Heap
  registryAddr : Nat
  nextAddr : Nat
  deriving Repr

/-- Embeds `effects()`, i.e. `copy.deepcopy(Effect._all_effects)`: allocate
a fresh object holding a copy of the registry's current value and return its
address; the live registry is not touched. -/
def effectsCall (s : PyState) : Nat × PyState :=
  let v := (heapGet s.heap s.registryAddr).getD []
  (s.nextAddr, ⟨(s.nextAddr, v) :: s.heap, s.registryAddr, s.nextAddr + 1⟩)

/-- A caller mutating the object at address `a` in place (for a returned
snapshot: adding or removing entries of the mapping). -/
def mutateAt (s : PyState) (a : Nat) (f : Registry → Registry) : PyState :=
  { s with heap := heapSet s.heap a (f ((heapGet s.heap a).getD [])) }

/-- Embeds `Effect.calc_R_cΛpx`, which raises
`NotImplementedError("Not implemented")` without consulting `self.rmodel`. -/
def Effect.calc_R_cΛpx (_e : EffectState) : Except PyErr RArr4 :=
  .error (.notImplementedError "Not implemented")

/-- Concrete run of the magnitude setter on the effect named `"O_x"` with
the plain number 0 and empty external tables, used for witnessing. -/
def magExampleState : EffectState :=
  (Effect.setMagnitude [] [] "" { name := "O_x" } (.plain 0)).toOption.getD {}

/-- Claim C3: `Effect.is_common()` returns true iff all four
correlation-type axes equal `"rectangular_absolute"` and all four
correlation-scale slots are infinite; in particular all-rectangular axes
with all scales finite (e.g. 1000) yield `is_common() = false`. -/
theorem is_common_iff (e : EffectState) :
    (Effect.is_common e = true ↔
      ((∀ x ∈ ctList e._corr_type, x = "rectangular_absolute") ∧
        ∀ y ∈ csList e._corr_scale, y.isinf = true)) ∧
    Effect.is_common
      { e with _corr_type := allRect,
               _corr_scale := ⟨.fin 1000, .fin 1000, .fin 1000, .fin 1000⟩ } = false := by
  constructor
  · simp [Effect.is_common, List.all_eq_true]
  · simp [Effect.is_common, allRect, csList, ScaleNum.isinf]

/-- Claim C5: both matrix methods of `RModelCommon` fail for every dataset
(including the empty one) and every sampling with the same `ValueError`;
in the source they are one and the same function object. -/
theorem rmodel_common_rejects (ds : Dataset) (sampling_l sampling_e : Nat) :
    RModelCommon.calc_R_eΛlkx ds sampling_l sampling_e =
      .error (.valueError
        "We do not calculate error correlation matrices for common effects") ∧
    RModelCommon.calc_R_lΛekx ds sampling_l sampling_e =
      RModelCommon.calc_R_eΛlkx ds sampling_l sampling_e :=
  ⟨rfl, rfl⟩

/-- Claim C9: the matrix methods of `RModelPeriodicError` and `RModelRSelf`,
and `Effect.calc_R_cΛpx` on any effect regardless of its rmodel, all signal
`NotImplementedError`, which is a different exception class from the
`ValueError` signalled by `RModelCommon`'s matrix methods. -/
theorem not_implemented_distinguishable (ds ds2 : Dataset)
    (sl se sl2 se2 : Nat) (e : EffectState) :
    (∃ m, RModelPeriodicError.calc_R_eΛlkx ds sl se = .error (.notImplementedError m)) ∧
    (∃ m, RModelPeriodicError.calc_R_lΛekx ds sl se = .error (.notImplementedError m)) ∧
    (∃ m, RModelRSelf.calc_R_eΛlkx ds sl se = .error (.notImplementedError m)) ∧
    (∃ m, RModelRSelf.calc_R_lΛekx ds sl se = .error (.notImplementedError m)) ∧
    (∃ m, Effect.calc_R_cΛpx e = .error (.notImplementedError m)) ∧
    (∃ m, RModelCommon.calc_R_eΛlkx ds2 sl2 se2 = .error (.valueError m)) ∧
    (∀ m m2, PyErr.notImplementedError m ≠ PyErr.valueError m2) := by
  refine ⟨⟨"", rfl⟩, ⟨"", rfl⟩, ⟨"", rfl⟩, ⟨"", rfl⟩, ⟨"Not implemented", rfl⟩,
    ⟨_, rfl⟩, ?_⟩
  intro m m2 h
  exact PyErr.noConfusion h

/-- Claim C4: for a dataset with `calibrated_channel = 19`,
`scanline_earth = 100`, `scanpos = 56` and default sampling,
`RModelRandom.calc_R_eΛlkx` has shape `(19, 100, 56, 56)` and every
`[c, l]` slice is the 56×56 identity matrix. -/
theorem rmodel_random_identity (ds : Dataset)
    (h19 : ds.calibrated_channel = 19) (h100 : ds.n_l = 100) (h56 : ds.scanpos = 56)
    (c l i j : Nat) (hi : i < 56) (hj : j < 56) :
    (RModelRandom.calc_R_eΛlkx ds 1 1).shape = (19, 100, 56, 56) ∧
    (RModelRandom.calc_R_eΛlkx ds 1 1).entry c l i j = if i = j then 1 else 0 := by
  unfold RModelRandom.calc_R_eΛlkx
  constructor
  · simp [h19, h100, h56, ceilDiv]
  · simp [h56, ceilDiv, Nat.mod_eq_of_lt hi, Nat.mod_eq_of_lt hj]

/-- Witness for C4 at a concrete dataset and concrete indices. -/
theorem rmodel_random_identity_witness :
    (RModelRandom.calc_R_eΛlkx ⟨19, 56, List.replicate 100 0, []⟩ 1 1).entry 3 7 5 5 = 1 := by
  have h := rmodel_random_identity ⟨19, 56, List.replicate 100 0, []⟩ rfl
    (by simp [Dataset.n_l]) rfl 3 7 5 5 (by decide) (by decide)
  simpa using h.2

/-- Claim C2: with sampling 1, each `[c, p]` slice of
`RModelCalib.calc_R_lΛekx` has entry 1.0 at scanlines `(i, j)` exactly when
`i` and `j` are preceded by the same number of calibration-cycle boundaries
(the `ccid` count), entry 0.0 otherwise, and its diagonal is always 1.0. -/
theorem rmodel_calib_scanline_spec (ds : Dataset) (c p i j : Nat)
    (hi : i < ds.n_l) (hj : j < ds.n_l) :
    ((RModelCalib.calc_R_lΛekx ds 1 1).entry c p i j = 1 ↔ ccid ds i = ccid ds j) ∧
    ((RModelCalib.calc_R_lΛekx ds 1 1).entry c p i j = 0 ↔ ccid ds i ≠ ccid ds j) ∧
    (RModelCalib.calc_R_lΛekx ds 1 1).entry c p i i = 1 := by
  have hm : ceilDiv ds.n_l 1 = ds.n_l := by simp [ceilDiv]
  unfold RModelCalib.calc_R_lΛekx
  simp only [hm, Nat.mod_eq_of_lt hi, Nat.mod_eq_of_lt hj, mul_one]
  unfold calibR
  refine ⟨?_, ?_, by simp⟩
  · split <;> simp_all
  · split <;> simp_all

/-- Witness for C2 at a concrete dataset: scanlines 1 and 2 fall in the same
calibration cycle, scanlines 0 and 1 do not, and the diagonal entry is 1. -/
theorem rmodel_calib_scanline_spec_witness :
    ((RModelCalib.calc_R_lΛekx ⟨2, 3, [0, 2, 4, 6], [1, 5]⟩ 1 1).entry 0 0 1 2 = 1) ∧
    ((RModelCalib.calc_R_lΛekx ⟨2, 3, [0, 2, 4, 6], [1, 5]⟩ 1 1).entry 0 0 0 1 = 0) ∧
    ((RModelCalib.calc_R_lΛekx ⟨2, 3, [0, 2, 4, 6], [1, 5]⟩ 1 1).entry 0 0 3 3 = 1) := by
  refine ⟨?_, ?_, ?_⟩
  · exact ((rmodel_calib_scanline_spec ⟨2, 3, [0, 2, 4, 6], [1, 5]⟩ 0 0 1 2
      (by decide) (by decide)).1).mpr (by decide)
  · exact ((rmodel_calib_scanline_spec ⟨2, 3, [0, 2, 4, 6], [1, 5]⟩ 0 0 0 1
      (by decide) (by decide)).2.1).mpr (by decide)
  · exact (rmodel_calib_scanline_spec ⟨2, 3, [0, 2, 4, 6], [1, 5]⟩ 0 0 3 3
      (by decide) (by decide)).2.2

/-- Claim C6: assigning a 4-tuple of correlation types succeeds and replaces
the stored tuple atomically (only `_corr_type` changes) when every slot is
in the closed vocabulary; when some slot is outside the vocabulary it fails
with a `ValueError` whose message names the offending slot and lists the
valid choices, and no state is produced, so the stored tuple is unchanged. -/
theorem correlation_type_setter_spec (e : EffectState) (v : CorrelationType4) :
    ((∀ x ∈ ctList v, x ∈ _valid_correlation_types) →
      Effect.setCorrelationType e v = .ok { e with _corr_type := v }) ∧
    ((∃ x ∈ ctList v, x ∉ _valid_correlation_types) →
      ∃ y, y ∈ ctList v ∧ y ∉ _valid_correlation_types ∧
        Effect.setCorrelationType e v =
          .error (.valueError ("Unknown correlation type: " ++ y ++
            ". Expected one of: " ++
            String.intercalate ", " _valid_correlation_types))) := by
  constructor
  · intro hall
    have hnone : (ctList v).find? (fun x => !(_valid_correlation_types.contains x)) = none := by
      rw [List.find?_eq_none]
      intro x hx
      simpa using hall x hx
    unfold Effect.setCorrelationType
    rw [hnone]
  · rintro ⟨x, hx, hnx⟩
    unfold Effect.setCorrelationType
    cases hf : (ctList v).find? (fun x => !(_valid_correlation_types.contains x)) with
    | none =>
        exfalso
        have := List.find?_eq_none.mp hf x hx
        simp at this
        exact hnx this
    | some y =>
        refine ⟨y, List.mem_of_find?_eq_some hf, ?_, ?_⟩
        · have := List.find?_some hf
          simpa using this
        · rfl

/-- Witness for C6: a fully valid assignment succeeds atomically and an
assignment containing `"gaussian"` fails naming that slot. -/
theorem correlation_type_setter_spec_witness :
    Effect.setCorrelationType {} ⟨"random", "random", "random", "random"⟩ =
      .ok { ({} : EffectState) with
            _corr_type := ⟨"random", "random", "random", "random"⟩ } ∧
    ∃ y, y ∈ ctList ⟨"random", "random", "random", "gaussian"⟩ ∧
      y ∉ _valid_correlation_types ∧
      Effect.setCorrelationType {} ⟨"random", "random", "random", "gaussian"⟩ =
        .error (.valueError ("Unknown correlation type: " ++ y ++
          ". Expected one of: " ++
          String.intercalate ", " _valid_correlation_types)) :=
  ⟨(correlation_type_setter_spec {} ⟨"random", "random", "random", "random"⟩).1
      (by decide),
   (correlation_type_setter_spec {} ⟨"random", "random", "random", "gaussian"⟩).2
      ⟨"gaussian", by decide, by decide⟩⟩

/-- Counterexample to claim C1: the effect named `"Earthshine"` (which does
not start with `"O_"`), with both external encoding tables empty — so the
name is registered in neither — makes the magnitude setter raise `KeyError`
instead of skipping the enrichment step and completing normally. -/
theorem magnitude_missing_encoding_counterexample :
    encLookup [] "Earthshine" = none ∧
    Effect.setMagnitude [] [] "" { name := "Earthshine" } (.plain 0) =
      .error (.keyError "Earthshine") := by
  decide

/-- Claim C1 (amended): for every effect whose name is absent from the
data-variable properties table, the magnitude setter skips the enrichment
step and completes normally exactly when the name starts with `"O_"`; for
any other name it raises a `KeyError` naming the effect.  Absence from the
uncertainty-encodings table alone is always tolerated (the table is
arbitrary in both parts). -/
theorem magnitude_missing_encoding_amended (props uncEnc : EncTable)
    (sens : String) (e : EffectState) (input : MagInput)
    (habs : encLookup props e.name = none) :
    (pyStartsWith e.name "O_" = true →
      ∃ da, Effect.setMagnitude props uncEnc sens e input =
        .ok { e with _magnitude := some da }) ∧
    (pyStartsWith e.name "O_" = false →
      Effect.setMagnitude props uncEnc sens e input = .error (.keyError e.name)) := by
  unfold Effect.setMagnitude Effect.buildMagnitude
  constructor
  · intro hsw
    simp only [habs, hsw, Option.isSome_none, Bool.not_true, Bool.or_false]
    exact ⟨_, rfl⟩
  · intro hsw
    simp only [habs, hsw, Option.isSome_none, Bool.not_false, Bool.true_or]
    rfl

/-- Witness for the amended C1: with empty tables, the `"O_TIWCT"` effect
(IWCT PRT representation) completes normally and the `"Earthshine"` effect
raises a `KeyError`. -/
theorem magnitude_missing_encoding_amended_witness :
    (∃ da, Effect.setMagnitude [] [] "" { name := "O_TIWCT" } (.plain 0) =
      .ok { ({ name := "O_TIWCT" } : EffectState) with _magnitude := some da }) ∧
    Effect.setMagnitude [] [] "" { name := "Earthshine" } (.plain 0) =
      .error (.keyError "Earthshine") :=
  ⟨(magnitude_missing_encoding_amended [] [] "" { name := "O_TIWCT" } (.plain 0)
      (by decide)).1 (by decide),
   (magnitude_missing_encoding_amended [] [] "" { name := "Earthshine" } (.plain 0)
      (by decide)).2 (by decide)⟩



theorem lookupAttr_cons (p : String × AttrVal) (t : List (String × AttrVal)) (k2 : String) :
    lookupAttr (p :: t) k2 = if p.1 == k2 then some p.2 else lookupAttr t k2 := by
  by_cases h : (p.1 == k2) = true <;> simp [lookupAttr, List.find?, h]

theorem lookupAttr_append_ne (l : List (String × AttrVal)) (k k2 : String) (v : AttrVal)
    (hne : k ≠ k2) : lookupAttr (l ++ [(k, v)]) k2 = lookupAttr l k2 := by
  have hkk : (k == k2) = false := by simpa using hne
  induction l with
  | nil => simp [lookupAttr, List.find?, hkk]
  | cons p t ih => rw [List.cons_append, lookupAttr_cons, lookupAttr_cons, ih]

theorem lookupAttr_map_set_ne (l : List (String × AttrVal)) (k k2 : String) (v : AttrVal)
    (hne : k ≠ k2) :
    lookupAttr (l.map (fun p => if p.1 == k then (k, v) else p)) k2 = lookupAttr l k2 := by
  induction l with
  | nil => rfl
  | cons p t ih =>
      rw [List.map_cons, lookupAttr_cons, lookupAttr_cons]
      by_cases hp : (p.1 == k) = true
      · have hpk : p.1 = k := by simpa using hp
        have h1 : (k == k2) = false := by simpa using hne
        have h2 : (p.1 == k2) = false := by rw [hpk]; simpa using hne
        simp only [hp, if_true, h1, h2, Bool.false_eq_true, if_false, ih]
      · simp only [hp, Bool.false_eq_true, if_false, ih]

theorem lookupAttr_attrsSet_ne (l : List (String × AttrVal)) (k k2 : String) (v : AttrVal)
    (hne : k ≠ k2) : lookupAttr (attrsSet l k v) k2 = lookupAttr l k2 := by
  unfold attrsSet
  split
  · exact lookupAttr_map_set_ne l k k2 v hne
  · exact lookupAttr_append_ne l k k2 v hne

theorem lookupAttr_attrsSetdefault_ne (l : List (String × AttrVal)) (k k2 : String)
    (v : AttrVal) (hne : k ≠ k2) :
    lookupAttr (attrsSetdefault l k v) k2 = lookupAttr l k2 := by
  unfold attrsSetdefault
  split
  · rfl
  · exact lookupAttr_append_ne l k k2 v hne

theorem stampAttrs_name (sens : String) (e : EffectState) (da : DataArray) :
    (stampAttrs sens e da).name = da.name := by
  simp only [stampAttrs]

theorem stampAttrs_attrs (sens : String) (e : EffectState) (da : DataArray) :
    (stampAttrs sens e da).attrs = stampedAttrs sens e da.attrs := by
  simp only [stampAttrs]

theorem stampedAttrs_lookup_units (sens : String) (e : EffectState)
    (a0 : List (String × AttrVal)) :
    lookupAttr (stampedAttrs sens e a0) "units" = lookupAttr a0 "units" := by
  unfold stampedAttrs
  rw [lookupAttr_attrsSet_ne _ "WARNING" "units" _ (by decide),
      lookupAttr_attrsSet_ne _ "sensitivity_coefficient" "units" _ (by decide),
      lookupAttr_attrsSet_ne _ "channel_correlations" "units" _ (by decide),
      lookupAttr_attrsSet_ne _ "correlation_scale_across_time" "units" _ (by decide),
      lookupAttr_attrsSet_ne _ "correlation_type_across_time" "units" _ (by decide),
      lookupAttr_attrsSet_ne _ "correlation_scale_between_orbits" "units" _ (by decide),
      lookupAttr_attrsSet_ne _ "correlation_type_between_orbits" "units" _ (by decide),
      lookupAttr_attrsSet_ne _ "correlation_scale_between_scanlines" "units" _ (by decide),
      lookupAttr_attrsSet_ne _ "correlation_type_between_scanlines" "units" _ (by decide),
      lookupAttr_attrsSet_ne _ "correlation_scale_within_scanline" "units" _ (by decide),
      lookupAttr_attrsSet_ne _ "correlation_type_within_scanline" "units" _ (by decide),
      lookupAttr_attrsSet_ne _ "channels_affected" "units" _ (by decide),
      lookupAttr_attrsSet_ne _ "pdf_shape" "units" _ (by decide),
      lookupAttr_attrsSet_ne _ "parameter" "units" _ (by decide),
      lookupAttr_attrsSet_ne _ "short_name" "units" _ (by decide),
      lookupAttr_attrsSetdefault_ne _ "long_name" "units" _ (by decide)]

/-- Claim C8: whenever assigning a plain number (no attached unit) to
`magnitude` completes, the stored labelled array has no `units` attribute
and its name is `"u_"` followed by the effect's name. -/
theorem magnitude_plain_number_spec (props uncEnc : EncTable) (sens : String)
    (e : EffectState) (q : ℚ) (e2 : EffectState)
    (h : Effect.setMagnitude props uncEnc sens e (.plain q) = .ok e2) :
    ∃ da, e2._magnitude = some da ∧
      lookupAttr da.attrs "units" = none ∧ da.name = some ("u_" ++ e.name) := by
  unfold Effect.setMagnitude at h
  cases hb : Effect.buildMagnitude props uncEnc sens e (.plain q) with
  | error err => rw [hb] at h; exact absurd h (by simp [Except.map])
  | ok da =>
      rw [hb] at h
      simp only [Except.map, Except.ok.injEq] at h
      subst h
      refine ⟨da, by simp, ?_⟩
      unfold Effect.buildMagnitude at hb
      simp only [] at hb
      split at hb
      next err heq => exact absurd hb (by simp)
      next da3 heq =>
        simp only [Except.ok.injEq] at hb
        subst hb
        split at heq
        next hguard =>
          split at heq
          next enc henc =>
            simp only [Except.ok.injEq] at heq
            subst heq
            constructor
            · simp only [stampAttrs]
              rw [stampedAttrs_lookup_units]
              simp [lookupAttr]
            · simp [stampAttrs]
          next henc => exact absurd heq (by simp)
        next hguard =>
          simp only [Except.ok.injEq] at heq
          subst heq
          constructor
          · simp only [stampAttrs]
            rw [stampedAttrs_lookup_units]
            simp [lookupAttr]
          · simp [stampAttrs]

set_option maxRecDepth 4000 in
/-- Witness for C8: the `"O_x"` effect assigned the plain number 0 stores a
magnitude array without a `units` attribute, named `"u_O_x"`. -/
theorem magnitude_plain_number_spec_witness :
    ∃ da, magExampleState._magnitude = some da ∧
      lookupAttr da.attrs "units" = none ∧ da.name = some ("u_" ++ "O_x") :=
  magnitude_plain_number_spec [] [] "" { name := "O_x" } 0 magExampleState (by decide)

theorem heapGet_cons (h : Heap) (n a : Nat) (v : Registry) :
    heapGet ((n, v) :: h) a = if n = a then some v else heapGet h a := by
  by_cases hx : n = a
  · subst hx; simp [heapGet, List.find?]
  · have : (n == a) = false := by simpa using hx
    simp [heapGet, List.find?, this, hx]

theorem heapGet_heapSet_ne (h : Heap) (a b : Nat) (v : Registry) (hne : b ≠ a) :
    heapGet (heapSet h a v) b = heapGet h b := by
  induction h with
  | nil => rfl
  | cons p t ih =>
      obtain ⟨k, w⟩ := p
      by_cases hk : (k == a) = true
      · have hka : k = a := by simpa using hk
        subst hka
        simp only [heapSet, List.map_cons, beq_self_eq_true, if_true]
        rw [heapGet_cons, heapGet_cons]
        have hknb : ¬ k = b := fun hkb => hne hkb.symm
        rw [if_neg hknb, if_neg hknb]
        exact ih
      · simp only [heapSet, List.map_cons, hk, Bool.false_eq_true, if_false]
        rw [heapGet_cons, heapGet_cons]
        by_cases hkb : k = b
        · rw [if_pos hkb, if_pos hkb]
        · rw [if_neg hkb, if_neg hkb]
          exact ih

/-- Claim C7: `effects()` returns a deep copy of the live registry: after a
caller mutates the returned snapshot object arbitrarily (adding or removing
entries), the live registry still dereferences to its original value, and a
second, independent `effects()` call yields a snapshot whose value is again
exactly the registry content from catalogue-construction time. -/
theorem effects_snapshot_isolated (s : PyState) (reg : Registry)
    (f : Registry → Registry)
    (hlt : s.registryAddr < s.nextAddr)
    (hreg : heapGet s.heap s.registryAddr = some reg) :
    heapGet (mutateAt (effectsCall s).2 (effectsCall s).1 f).heap s.registryAddr
        = some reg ∧
    heapGet (effectsCall (mutateAt (effectsCall s).2 (effectsCall s).1 f)).2.heap
        (effectsCall (mutateAt (effectsCall s).2 (effectsCall s).1 f)).1
      = some reg := by
  have hne : s.registryAddr ≠ s.nextAddr := Nat.ne_of_lt hlt
  have hfst : (effectsCall s).1 = s.nextAddr := rfl
  have hc1 : heapGet (mutateAt (effectsCall s).2 (effectsCall s).1 f).heap
      s.registryAddr = some reg := by
    show heapGet (heapSet ((s.nextAddr,
        (heapGet s.heap s.registryAddr).getD []) :: s.heap) s.nextAddr _)
      s.registryAddr = some reg
    rw [heapGet_heapSet_ne _ _ _ _ hne]
    rw [heapGet_cons, if_neg (fun hx => hne hx.symm), hreg]
  refine ⟨hc1, ?_⟩
  show heapGet (((mutateAt (effectsCall s).2 (effectsCall s).1 f).nextAddr,
      (heapGet (mutateAt (effectsCall s).2 (effectsCall s).1 f).heap
        (mutateAt (effectsCall s).2 (effectsCall s).1 f).registryAddr).getD []) ::
      (mutateAt (effectsCall s).2 (effectsCall s).1 f).heap)
    (mutateAt (effectsCall s).2 (effectsCall s).1 f).nextAddr = _
  rw [heapGet_cons, if_pos rfl]
  have hraddr : (mutateAt (effectsCall s).2 (effectsCall s).1 f).registryAddr
      = s.registryAddr := rfl
  rw [hraddr, hc1]
  simp

/-- Witness for C7 at a concrete state: a registry holding one parameter
entry, a snapshot taken and emptied by the caller. -/
theorem effects_snapshot_isolated_witness :
    heapGet (mutateAt (effectsCall ⟨[(0, [("p", [])])], 0, 1⟩).2
        (effectsCall ⟨[(0, [("p", [])])], 0, 1⟩).1 (fun _ => [])).heap 0
      = some [("p", [])] :=
  (effects_snapshot_isolated ⟨[(0, [("p", [])])], 0, 1⟩ [("p", [])]
    (fun _ => []) (by decide) (by decide)).1

/-- Claim C10: registration is the final step of `Effect.__init__`: whenever
any attribute assignment during construction raises (unknown attribute
name, correlation-type slot outside the vocabulary, non-numeric
correlation-scale slot, ...), the exception propagates with the
process-wide registry exactly as it was — the partially built effect is
never registered. -/
theorem effect_init_registry_atomic (props uncEnc : EncTable) (sens : String)
    (reg : Registry) (kwargs : List Kwarg) (err : PyErr)
    (h : (effectInit props uncEnc sens reg kwargs).1 = .error err) :
    (effectInit props uncEnc sens reg kwargs).2 = reg := by
  unfold effectInit at h ⊢
  cases ha : applyKwargs props uncEnc sens {} (initOrder kwargs) with
  | error e2 => rfl
  | ok e2 => rw [ha] at h; exact absurd h (by simp)

set_option maxRecDepth 4000 in
/-- Witness for C10: constructing an effect whose `correlation_type` tuple
contains `"gaussian"` fails and leaves a previously non-empty registry
unchanged. -/
theorem effect_init_registry_atomic_witness :
    (effectInit [] [] "" [("q", [])]
        [.name "x", .parameter "p",
         .correlation_type ⟨"random", "random", "random", "gaussian"⟩]).2
      = [("q", [])] :=
  effect_init_registry_atomic [] [] "" [("q", [])]
    [.name "x", .parameter "p",
     .correlation_type ⟨"random", "random", "random", "gaussian"⟩]
    (.valueError (ctErrMsg "gaussian")) (by decide)
